import Mathlib

/-!
Shallow embedding of the core state machine of the base/bridge Solana programs
(programs/bridge and programs/base_relayer), translated from the Rust sources.

Machine-integer conventions: u8/u64/u128 values are represented as Nat.
The crate builds with overflow checks enabled (the sources rely on them,
e.g. the comment "NOTE: Native underflow checking." in
register_output_root.rs), so Rust arithmetic that can wrap is modelled as
checked: an operation that panics is None.  A Rust cast with the as
operator truncates and never panics, so it is modelled with % 2 ^ 64.
Division by zero panics in Rust irrespective of overflow checks, so it is
also None.  External calls (the secp256k1_recover and keccak syscalls, CPI
lamport and token transfers) are parameters of the embedded functions.
-/

def U64_LIMIT : Nat := 2 ^ 64

def U128_LIMIT : Nat := 2 ^ 128

/-- Checked u64 addition: Rust a + b under overflow checks. -/
def checkedAddU64 (a b : Nat) : Option Nat :=
  if a + b < U64_LIMIT then some (a + b) else none

/-- Checked u64 multiplication: Rust a * b under overflow checks. -/
def checkedMulU64 (a b : Nat) : Option Nat :=
  if a * b < U64_LIMIT then some (a * b) else none

/-- Checked unsigned subtraction (u8/u64/u128 share the same Nat model):
Rust a - b under overflow checks, and also the explicit checked_sub. -/
def checkedSubNat (a b : Nat) : Option Nat :=
  if b ≤ a then some (a - b) else none

/-- Checked u128 multiplication: Rust a * b (or checked_mul) on u128. -/
def checkedMulU128 (a b : Nat) : Option Nat :=
  if a * b < U128_LIMIT then some (a * b) else none

/-- Modelled from the spec: the SCALE constant of the fixed-point domain is
declared in base_relayer/src/constants.rs, which is not among the sources;
spec §4.1 fixes it as a power of ten large enough for sub-ppm precision over
64-bit inputs (SCALE = 10 ^ n).  We take n = 18; no claim below depends on
the exact power. -/
def SCALE : Nat := 10 ^ 18

/-- Loop body of fixed_pow (base_relayer/src/internal/math.rs).  The Rust
while loop halves exp each iteration; the extra fuel argument (initialised
to exp, which bounds the iteration count) makes the recursion structural.
Both checked_mul ... .unwrap() calls panic on overflow, hence Option. -/
def fixed_pow_go : Nat → Nat → Nat → Nat → Option Nat
  | _, _, 0, result => some result
  | 0, _, _, _ => none
  | fuel + 1, base, exp, result =>
    match (if exp % 2 = 1 then (checkedMulU128 result base).map (· / SCALE) else some result) with
    | none => none
    | some result2 =>
      match checkedMulU128 base base with
      | none => none
      | some sq => fixed_pow_go fuel (sq / SCALE) (exp / 2) result2

/-- Exponentiation by squaring in the SCALE fixed-point domain
(base_relayer/src/internal/math.rs, fn fixed_pow). -/
def fixed_pow (base exp : Nat) : Option Nat :=
  fixed_pow_go exp base exp SCALE

/-- EIP-1559 fee engine state (bridge/src/common/state/bridge.rs, struct
Eip1559; the base_relayer variant in internal/eip_1559.rs carries the same
fields with the four config fields nested).  Timestamps are stored after
the i64 -> u64 cast the code performs on use. -/
structure Eip1559 where
  target : Nat
  denominator : Nat
  window_duration_seconds : Nat
  minimum_base_fee : Nat
  current_base_fee : Nat
  current_window_gas_used : Nat
  window_start_time : Nat
deriving DecidableEq, Repr

/-- Default EIP-1559 configuration constants
(bridge/src/common/constants.rs). -/
def EIP1559_MINIMUM_BASE_FEE : Nat := 1

def EIP1559_DEFAULT_WINDOW_DURATION_SECONDS : Nat := 1

def EIP1559_DEFAULT_GAS_TARGET_PER_WINDOW : Nat := 5000000

def EIP1559_DEFAULT_ADJUSTMENT_DENOMINATOR : Nat := 2

/-- Eip1559::new (bridge/src/common/state/bridge.rs). -/
def Eip1559.new (current_timestamp : Nat) : Eip1559 where
  target := EIP1559_DEFAULT_GAS_TARGET_PER_WINDOW
  denominator := EIP1559_DEFAULT_ADJUSTMENT_DENOMINATOR
  window_duration_seconds := EIP1559_DEFAULT_WINDOW_DURATION_SECONDS
  minimum_base_fee := EIP1559_MINIMUM_BASE_FEE
  current_base_fee := EIP1559_MINIMUM_BASE_FEE
  current_window_gas_used := 0
  window_start_time := current_timestamp

/-- Eip1559::expired_windows_count: (now as u64 - window_start_time as u64)
/ window_duration_seconds.  The u64 subtraction panics on underflow under
overflow checks, and the division panics when the duration is zero. -/
def Eip1559.expired_windows_count (s : Eip1559) (now : Nat) : Option Nat :=
  match checkedSubNat now s.window_start_time with
  | none => none
  | some d =>
    if s.window_duration_seconds = 0 then none else some (d / s.window_duration_seconds)

/-- Eip1559::calc_base_fee (bridge/src/common/state/bridge.rs).  The
multiplications are plain u64 products (panic on overflow); the divisions
panic when target or denominator is zero; the decrease branch is
current_base_fee.checked_sub(delta).unwrap_or(minimum_base_fee). -/
def Eip1559.calc_base_fee (s : Eip1559) (gas_used : Nat) : Option Nat :=
  if gas_used = s.target then some s.current_base_fee
  else if s.target < gas_used then
    match checkedMulU64 (gas_used - s.target) s.current_base_fee with
    | none => none
    | some p =>
      if s.target = 0 ∨ s.denominator = 0 then none
      else
        let base_fee_delta := max (p / s.target / s.denominator) 1
        checkedAddU64 s.current_base_fee base_fee_delta
  else
    match checkedMulU64 (s.target - gas_used) s.current_base_fee with
    | none => none
    | some p =>
      if s.target = 0 ∨ s.denominator = 0 then none
      else
        let base_fee_delta := p / s.target / s.denominator
        some (match checkedSubNat s.current_base_fee base_fee_delta with
              | some v => v
              | none => s.minimum_base_fee)

/-- Eip1559::refresh_base_fee (bridge/src/common/state/bridge.rs): applies
the used-window update once, then, for the remaining expired windows,
multiplies by ((denominator - 1) / denominator) ^ (count - 1) computed via
fixed_pow in the SCALE domain; finally opens a fresh window.  The final
as u64 cast truncates, hence % 2 ^ 64. -/
def Eip1559.refresh_base_fee (s : Eip1559) (now : Nat) : Option (Nat × Eip1559) :=
  match s.expired_windows_count now with
  | none => none
  | some expired_windows =>
    if expired_windows = 0 then some (s.current_base_fee, s)
    else
      match s.calc_base_fee s.current_window_gas_used with
      | none => none
      | some fee0 =>
        let remaining_windows := expired_windows - 1
        let feeStep : Option Nat :=
          if 0 < remaining_windows then
            match checkedMulU128 s.denominator SCALE with
            | none => none
            | some scaled_denominator =>
              match checkedSubNat scaled_denominator SCALE with
              | none => none
              | some diff =>
                match fixed_pow (diff / s.denominator) remaining_windows with
                | none => none
                | some factor =>
                  match checkedMulU128 fee0 factor with
                  | none => none
                  | some prod => some (prod / SCALE % U64_LIMIT)
          else some fee0
        match feeStep with
        | none => none
        | some fee =>
          some (fee, { s with current_base_fee := fee, current_window_gas_used := 0,
                              window_start_time := now })

/-- Eip1559::add_gas_usage: current_window_gas_used += gas_amount (checked
under overflow checks). -/
def Eip1559.add_gas_usage (s : Eip1559) (gas_amount : Nat) : Option Eip1559 :=
  match checkedAddU64 s.current_window_gas_used gas_amount with
  | none => none
  | some g => some { s with current_window_gas_used := g }

/-- Solana public keys are only created and compared by the embedded code,
so they are modelled as their base58 strings. -/
abbrev Pubkey := String

/-- NATIVE_SOL_PUBKEY (bridge/src/solana_to_base/constants.rs). -/
def NATIVE_SOL_PUBKEY : Pubkey := "SoL1111111111111111111111111111111111111111"

/-- TRUSTED_ORACLE for the default (non-devnet) feature set
(bridge/src/base_to_solana/constants.rs). -/
def TRUSTED_ORACLE : Pubkey := "CB8GXDdZDSD5uqfeow1qfp48ouayxXGpw7ycmoovuQMX"

/-- GAS_FEE_RECEIVER = TRUSTED_ORACLE
(bridge/src/solana_to_base/constants.rs). -/
def GAS_FEE_RECEIVER : Pubkey := TRUSTED_ORACLE

/-- GAS_COST_SCALER (bridge/src/solana_to_base/constants.rs). -/
def GAS_COST_SCALER : Nat := 1000000

/-- GAS_COST_SCALER_DP = 10^6 (bridge/src/solana_to_base/constants.rs). -/
def GAS_COST_SCALER_DP : Nat := 1000000

/-- MAX_GAS_LIMIT_PER_MESSAGE (bridge/src/solana_to_base/constants.rs). -/
def MAX_GAS_LIMIT_PER_MESSAGE : Nat := 100000000

namespace SolanaToBase

/-- CallType (bridge/src/solana_to_base/state/outgoing_message.rs). -/
inductive CallType
  | Call
  | DelegateCall
  | Create
  | Create2
deriving DecidableEq, Repr

/-- Call (bridge/src/solana_to_base/state/outgoing_message.rs): to is a
20-byte Base address, data the call payload bytes. -/
structure Call where
  ty : CallType
  «to» : List Nat
  value : Nat
  data : List Nat
deriving DecidableEq, Repr

/-- Transfer (bridge/src/solana_to_base/state/outgoing_message.rs). -/
structure Transfer where
  «to» : List Nat
  local_token : Pubkey
  remote_token : List Nat
  amount : Nat
  call : Option Call
deriving DecidableEq, Repr

/-- Message (bridge/src/solana_to_base/state/outgoing_message.rs). -/
inductive Message
  | Call (call : Call)
  | Transfer (transfer : Transfer)
deriving DecidableEq, Repr

/-- OutgoingMessage (bridge/src/solana_to_base/state/outgoing_message.rs).
A sibling draft of the instruction handlers also carries a gas_limit field;
none of the embedded operations read it, so the persisted shape follows the
state file. -/
structure OutgoingMessage where
  nonce : Nat
  original_payer : Pubkey
  sender : Pubkey
  message : Message
deriving DecidableEq, Repr

/-- OutgoingMessage::new_call. -/
def OutgoingMessage.new_call (nonce : Nat) (payer sender : Pubkey) (call : Call) :
    OutgoingMessage :=
  { nonce := nonce, original_payer := payer, sender := sender, message := Message.Call call }

/-- OutgoingMessage::new_transfer. -/
def OutgoingMessage.new_transfer (nonce : Nat) (payer sender : Pubkey) (transfer : Transfer) :
    OutgoingMessage :=
  { nonce := nonce, original_payer := payer, sender := sender,
    message := Message.Transfer transfer }

/-- RELAY_MESSAGES_CALL_ABI_ENCODING_OVERHEAD
(bridge/src/solana_to_base/constants.rs). -/
def RELAY_MESSAGES_CALL_ABI_ENCODING_OVERHEAD : Nat := 544

/-- RELAY_MESSAGES_TRANSFER_ABI_ENCODING_OVERHEAD
(bridge/src/solana_to_base/constants.rs). -/
def RELAY_MESSAGES_TRANSFER_ABI_ENCODING_OVERHEAD : Nat := 480

/-- RELAY_MESSAGES_TRANSFER_AND_CALL_ABI_ENCODING_OVERHEAD
(bridge/src/solana_to_base/constants.rs). -/
def RELAY_MESSAGES_TRANSFER_AND_CALL_ABI_ENCODING_OVERHEAD : Nat := 704

/-- OutgoingMessage::relay_messages_tx_size
(bridge/src/solana_to_base/state/outgoing_message.rs).  data.len().div_ceil(32) * 32
is (len + 31) / 32 * 32.  Note the Transfer arm uses the plain transfer
overhead even when a call is attached (the source carries a TODO about it). -/
def OutgoingMessage.relay_messages_tx_size (m : OutgoingMessage) : Nat :=
  match m.message with
  | Message.Call call =>
      RELAY_MESSAGES_CALL_ABI_ENCODING_OVERHEAD + (call.data.length + 31) / 32 * 32
  | Message.Transfer transfer =>
      RELAY_MESSAGES_TRANSFER_ABI_ENCODING_OVERHEAD +
        (match transfer.call with
         | some call => (call.data.length + 31) / 32 * 32
         | none => 0)

end SolanaToBase

/-- GasCostConfig (bridge/src/common/state/bridge.rs). -/
structure GasCostConfig where
  gas_cost_scaler : Nat
  gas_cost_scaler_dp : Nat
  gas_fee_receiver : Pubkey
deriving DecidableEq, Repr

/-- Default for GasCostConfig (bridge/src/common/state/bridge.rs). -/
def GasCostConfig.default : GasCostConfig :=
  { gas_cost_scaler := GAS_COST_SCALER, gas_cost_scaler_dp := GAS_COST_SCALER_DP,
    gas_fee_receiver := GAS_FEE_RECEIVER }

/-- GasConfig (bridge/src/common/state/bridge.rs). -/
structure GasConfig where
  extra : Nat
  execution_prologue : Nat
  execution : Nat
  execution_epilogue : Nat
  base_transaction_cost : Nat
  max_gas_limit_per_message : Nat
deriving DecidableEq, Repr

/-- Default for GasConfig (bridge/src/common/state/bridge.rs). -/
def GasConfig.default : GasConfig :=
  { extra := 10000, execution_prologue := 65000, execution := 40000,
    execution_epilogue := 25000, base_transaction_cost := 21000,
    max_gas_limit_per_message := MAX_GAS_LIMIT_PER_MESSAGE }

/-- ProtocolConfig (bridge/src/common/state/bridge.rs). -/
structure ProtocolConfig where
  block_interval_requirement : Nat
deriving DecidableEq, Repr

/-- Bridge singleton state.  The sources carry two drafts of this struct:
bridge/src/common/state/bridge.rs (base_block_number,
base_last_relayed_nonce, nonce, eip1559, guardian and the config blocks)
and the variant constructed by common/instructions/initialize.rs
(base_block_number, nonce, eip1559, paused).  The embedding carries every
field the embedded handlers read or write; authorization-only identities
(guardian/owner), which the account framework validates before a handler
runs, are not modelled. -/
structure Bridge where
  base_block_number : Nat
  base_last_relayed_nonce : Nat
  nonce : Nat
  eip1559 : Eip1559
  gas_cost_config : GasCostConfig
  gas_config : GasConfig
  protocol_config : ProtocolConfig
  paused : Bool
deriving DecidableEq, Repr

/-- initialize_handler (bridge/src/common/instructions/initialize.rs):
creates the Bridge with base_block_number = 0, nonce = 0, a fresh
Eip1559 at the current timestamp, and paused = false; the remaining
fields take their source Default values. -/
def initialize_handler (current_timestamp : Nat) : Bridge :=
  { base_block_number := 0, base_last_relayed_nonce := 0, nonce := 0,
    eip1559 := Eip1559.new current_timestamp,
    gas_cost_config := GasCostConfig.default, gas_config := GasConfig.default,
    protocol_config := { block_interval_requirement := 300 }, paused := false }

namespace SolanaToBase

/-- Error kinds surfaced by the outbound handlers.  BridgePaused is
BridgeError::BridgePaused (common/state/bridge.rs draft),
CreationWithNonZeroTarget is SolanaToBaseError::CreationWithNonZeroTarget,
GasPaymentFailed collapses GasLimitExceeded and an insufficient-lamport
fee transfer, SolTransferFailed a failing lock CPI, and Panicked an
arithmetic panic surfacing from the handler itself. -/
inductive OutboundError
  | BridgePaused
  | CreationWithNonZeroTarget
  | GasPaymentFailed
  | SolTransferFailed
  | Panicked
deriving DecidableEq, Repr

/-- check_call (bridge/src/solana_to_base/instructions/mod.rs): creation
calls must target the 20-byte zero address. -/
def check_call (call : Call) : Except OutboundError Unit :=
  if call.ty = CallType.Call ∨ call.ty = CallType.DelegateCall ∨
      call.«to» = List.replicate 20 0 then Except.ok ()
  else Except.error OutboundError.CreationWithNonZeroTarget

/-- Modelled from the spec: the bridge's check_and_pay_for_gas is not under
src (only its callers are); following §4.3 and the base_relayer variant in
base_relayer/src/internal/gas_config.rs: reject gas_limit over the cap,
refresh the base fee, record gas usage gas_limit + overhead(tx_size) (the
per-kilobyte calldata overhead function is left as a parameter), charge
cost = gas_limit * base_fee * gas_cost_scaler / gas_cost_scaler_dp from the
payer.  Returns the updated fee state and the cost, or None on failure. -/
def check_and_pay_for_gas (overhead : Nat → Nat) (e : Eip1559) (gcc : GasCostConfig)
    (gc : GasConfig) (now payer_balance gas_limit tx_size : Nat) :
    Option (Eip1559 × Nat) :=
  if gc.max_gas_limit_per_message < gas_limit then none
  else
    match e.refresh_base_fee now with
    | none => none
    | some (base_fee, e2) =>
      match checkedAddU64 gas_limit (overhead tx_size) with
      | none => none
      | some usage =>
        match e2.add_gas_usage usage with
        | none => none
        | some e3 =>
          match checkedMulU64 gas_limit base_fee with
          | none => none
          | some c1 =>
            match checkedMulU64 c1 gcc.gas_cost_scaler with
            | none => none
            | some c2 =>
              if gcc.gas_cost_scaler_dp = 0 then none
              else
                let cost := c2 / gcc.gas_cost_scaler_dp
                if cost ≤ payer_balance then some (e3, cost) else none

/-- bridge_call_handler (bridge/src/solana_to_base/instructions/bridge_call.rs):
pause gate, call validation, message construction with the current nonce,
gas payment, persistence, nonce increment.  On any error the Solana runtime
rolls the transaction back, so an error result carries no state. -/
def bridge_call_handler (overhead : Nat → Nat) (b : Bridge) (payer fromKey : Pubkey)
    (payer_balance gas_limit : Nat) (call : Call) (now : Nat) :
    Except OutboundError (Bridge × OutgoingMessage) :=
  if b.paused then Except.error OutboundError.BridgePaused
  else
    match check_call call with
    | Except.error e => Except.error e
    | Except.ok _ =>
      let message := OutgoingMessage.new_call b.nonce payer fromKey call
      match check_and_pay_for_gas overhead b.eip1559 b.gas_cost_config b.gas_config now
          payer_balance gas_limit message.relay_messages_tx_size with
      | none => Except.error OutboundError.GasPaymentFailed
      | some (e2, _cost) =>
        match checkedAddU64 b.nonce 1 with
        | none => Except.error OutboundError.Panicked
        | some n2 => Except.ok ({ b with eip1559 := e2, nonce := n2 }, message)

/-- bridge_sol_handler (bridge/src/solana_to_base/instructions/bridge_sol.rs):
optional call validation, transfer message construction with the current
nonce, gas payment, SOL lock into the vault, persistence, nonce increment.
Note: unlike bridge_call_handler, the source has no pause gate here. -/
def bridge_sol_handler (overhead : Nat → Nat) (b : Bridge) (payer fromKey : Pubkey)
    (payer_balance from_balance gas_limit : Nat) (toAddr remote_token : List Nat)
    (amount : Nat) (call : Option Call) (now : Nat) :
    Except OutboundError (Bridge × OutgoingMessage) :=
  match (match call with
         | some c => check_call c
         | none => Except.ok ()) with
  | Except.error e => Except.error e
  | Except.ok _ =>
    let message := OutgoingMessage.new_transfer b.nonce payer fromKey
      { «to» := toAddr, local_token := NATIVE_SOL_PUBKEY, remote_token := remote_token,
        amount := amount, call := call }
    match check_and_pay_for_gas overhead b.eip1559 b.gas_cost_config b.gas_config now
        payer_balance gas_limit message.relay_messages_tx_size with
    | none => Except.error OutboundError.GasPaymentFailed
    | some (e2, _cost) =>
      if from_balance < amount then Except.error OutboundError.SolTransferFailed
      else
        match checkedAddU64 b.nonce 1 with
        | none => Except.error OutboundError.Panicked
        | some n2 => Except.ok ({ b with eip1559 := e2, nonce := n2 }, message)

/-- One attempted outbound send, with the caller-controlled inputs and the
environment facts (balances, clock) it runs under. -/
inductive OutboundAttempt
  | call (payer fromKey : Pubkey) (payer_balance gas_limit : Nat) (c : Call) (now : Nat)
  | sol (payer fromKey : Pubkey) (payer_balance from_balance gas_limit : Nat)
      (toAddr remote_token : List Nat) (amount : Nat) (c : Option Call) (now : Nat)
deriving Repr

/-- Transactional step semantics: a handler error aborts the transaction,
leaving the bridge and the set of persisted messages unchanged. -/
def outbound_step (overhead : Nat → Nat) (st : Bridge × List OutgoingMessage)
    (a : OutboundAttempt) : Bridge × List OutgoingMessage :=
  match a with
  | OutboundAttempt.call payer fromKey pb gl c now =>
    match bridge_call_handler overhead st.1 payer fromKey pb gl c now with
    | Except.ok (b2, m) => (b2, st.2 ++ [m])
    | Except.error _ => st
  | OutboundAttempt.sol payer fromKey pb fb gl toA rt amount c now =>
    match bridge_sol_handler overhead st.1 payer fromKey pb fb gl toA rt amount c now with
    | Except.ok (b2, m) => (b2, st.2 ++ [m])
    | Except.error _ => st

/-- Runs a sequence of outbound attempts from a freshly initialized bridge. -/
def run_outbound (overhead : Nat → Nat) (current_timestamp : Nat)
    (attempts : List OutboundAttempt) : Bridge × List OutgoingMessage :=
  attempts.foldl (outbound_step overhead) (initialize_handler current_timestamp, [])

end SolanaToBase

namespace SolanaToBase

/-- CallBuffer account payload (bridge/src/solana_to_base, as constructed
and consumed by the buffered instructions; the state declaration itself is
not among the sources). -/
structure CallBuffer where
  owner : Pubkey
  ty : CallType
  «to» : List Nat
  value : Nat
  data : List Nat
deriving DecidableEq, Repr

/-- Anchor account discriminator of CallBuffer: the first 8 bytes of
sha256 of the string account:CallBuffer. -/
def CALL_BUFFER_DISCRIMINATOR : List Nat := [134, 143, 168, 251, 163, 216, 180, 113]

/-- Raw state of the pre-allocated call-buffer account: its 8 discriminator
bytes and, once written, the serialized CallBuffer payload. -/
structure CallBufferAccount where
  disc : List Nat
  payload : CallBuffer
deriving DecidableEq, Repr

/-- Errors of initialize_call_buffer
(bridge/src/solana_to_base/instructions/buffered/initialize_call_buffer.rs). -/
inductive InitializeCallBufferError
  | MaxSizeExceeded
  | AlreadyInitialized
deriving DecidableEq, Repr

/-- initialize_call_buffer_handler
(bridge/src/solana_to_base/instructions/buffered/initialize_call_buffer.rs):
if the 8 discriminator bytes are not all zero the account is already
initialized and the handler fails; otherwise it serializes a CallBuffer
owned by the paying signer into the account, which writes the (nonzero)
discriminator. -/
def initialize_call_buffer_handler (payer : Pubkey) (ty : CallType) (toAddr : List Nat)
    (value : Nat) (initial_data : List Nat) (acct : CallBufferAccount) :
    Except InitializeCallBufferError CallBufferAccount :=
  if acct.disc ≠ List.replicate 8 0 then Except.error InitializeCallBufferError.AlreadyInitialized
  else
    Except.ok { disc := CALL_BUFFER_DISCRIMINATOR,
                payload := { owner := payer, ty := ty, «to» := toAddr, value := value,
                             data := initial_data } }

/-- Transactional view of an initialize attempt: on error the account is
left as it was. -/
def initialize_call_buffer_step (payer : Pubkey) (ty : CallType) (toAddr : List Nat)
    (value : Nat) (initial_data : List Nat) (acct : CallBufferAccount) : CallBufferAccount :=
  match initialize_call_buffer_handler payer ty toAddr value initial_data acct with
  | Except.ok a2 => a2
  | Except.error _ => acct

end SolanaToBase

namespace BaseToSolana

/-- RegisterOutputRootError (bridge/src/base_to_solana/instructions/register_output_root.rs). -/
inductive RegisterOutputRootError
  | Unauthorized
  | IncorrectBlockNumber
  | InsufficientSignatures
  | InvalidSignature
  | UntrustedOracle
  | InvalidRecoveryId
  | SignatureVerificationFailed
  | InvalidPublicKey
deriving DecidableEq, Repr

/-- Big-endian bytes of a u64 (block_number.to_be_bytes()). -/
def u64_be_bytes (n : Nat) : List Nat :=
  [n / 2 ^ 56 % 256, n / 2 ^ 48 % 256, n / 2 ^ 40 % 256, n / 2 ^ 32 % 256,
   n / 2 ^ 24 % 256, n / 2 ^ 16 % 256, n / 2 ^ 8 % 256, n % 256]

/-- A keccak256 oracle: the syscall is external, so the hash function is a
parameter of the embedded verification code (32-byte digests). -/
abbrev KeccakFn := List Nat → List Nat

/-- A secp256k1_recover oracle: message hash, recovery id, 64-byte
signature to the recovered 64-byte public key, or failure. -/
abbrev RecoverFn := List Nat → Nat → List Nat → Option (List Nat)

/-- create_ism_message_hash
(bridge/src/base_to_solana/instructions/register_output_root.rs):
keccak256(output_root concatenated with block_number big-endian). -/
def create_ism_message_hash (keccak : KeccakFn) (output_root : List Nat)
    (block_number : Nat) : List Nat :=
  keccak (output_root ++ u64_be_bytes block_number)

/-- is_trusted_oracle
(bridge/src/base_to_solana/instructions/register_output_root.rs): the
source is an explicit TODO stub that accepts every address. -/
def is_trusted_oracle (_oracle_eth_address : List Nat) : Bool :=
  true

/-- verify_secp256k1_signature
(bridge/src/base_to_solana/instructions/register_output_root.rs).  The
u8 subtraction v - 27 is the plain operator, which under the crate's
overflow checks panics for v < 27 (the source notes "NOTE: Native
underflow checking."); a panic is the outer None.  An Ok carries either
the verification success or a returned error. -/
def verify_secp256k1_signature (recover : RecoverFn) (keccak : KeccakFn)
    (signature : List Nat) (message_hash : List Nat) (expected_pubkey : List Nat) :
    Option (Except RegisterOutputRootError Bool) :=
  let v := signature.getD 64 0
  match checkedSubNat v 27 with
  | none => none
  | some recovery_id =>
    if 4 ≤ recovery_id then some (Except.error RegisterOutputRootError.InvalidRecoveryId)
    else
      let sig := signature.take 64
      match recover message_hash recovery_id sig with
      | none => some (Except.error RegisterOutputRootError.SignatureVerificationFailed)
      | some recovered_bytes =>
        let h := keccak recovered_bytes
        let eth_pubkey_bytes := h.drop 12
        if eth_pubkey_bytes ≠ expected_pubkey then
          some (Except.error RegisterOutputRootError.InvalidPublicKey)
        else if ¬ is_trusted_oracle expected_pubkey then
          some (Except.error RegisterOutputRootError.UntrustedOracle)
        else some (Except.ok true)

/-- The counting loop of verify_m_of_n_signatures: each entry is verified
with the question-mark operator, so a returned error propagates and a panic
aborts; valid entries are counted, duplicates included. -/
def count_valid_signatures (recover : RecoverFn) (keccak : KeccakFn)
    (message_hash : List Nat) :
    List (List Nat × List Nat) → Option (Except RegisterOutputRootError Nat)
  | [] => some (Except.ok 0)
  | (oracle_eth_address, signature) :: rest =>
    match verify_secp256k1_signature recover keccak signature message_hash
        oracle_eth_address with
    | none => none
    | some (Except.error e) => some (Except.error e)
    | some (Except.ok valid) =>
      match count_valid_signatures recover keccak message_hash rest with
      | none => none
      | some (Except.error e) => some (Except.error e)
      | some (Except.ok n) => some (Except.ok (if valid then n + 1 else n))

/-- MINIMUM_THRESHOLD (register_output_root.rs): hardcoded to 2, with a
TODO to define a real trusted oracle set and threshold. -/
def MINIMUM_THRESHOLD : Nat := 2

/-- verify_m_of_n_signatures
(bridge/src/base_to_solana/instructions/register_output_root.rs):
requires at least MINIMUM_THRESHOLD submitted signatures, hashes the
attestation, verifies each signature (propagating errors), and requires at
least MINIMUM_THRESHOLD valid ones. -/
def verify_m_of_n_signatures (recover : RecoverFn) (keccak : KeccakFn)
    (output_root : List Nat) (block_number : Nat)
    (signatures : List (List Nat × List Nat)) :
    Option (Except RegisterOutputRootError Unit) :=
  if signatures.length < MINIMUM_THRESHOLD then
    some (Except.error RegisterOutputRootError.InsufficientSignatures)
  else
    let message_hash := create_ism_message_hash keccak output_root block_number
    match count_valid_signatures recover keccak message_hash signatures with
    | none => none
    | some (Except.error e) => some (Except.error e)
    | some (Except.ok valid_signatures) =>
      if valid_signatures < MINIMUM_THRESHOLD then
        some (Except.error RegisterOutputRootError.InsufficientSignatures)
      else some (Except.ok ())

/-- register_output_root_handler
(bridge/src/base_to_solana/instructions/register_output_root.rs): requires
block_number > bridge.base_block_number and block_number % 300 == 0 (the
300 is a literal in the source; bridge.protocol_config.block_interval_requirement
is not consulted), then verifies the M-of-N signatures, then persists the
root and advances bridge.base_block_number.  Returns the updated bridge and
the persisted 32-byte root. -/
def register_output_root_handler (recover : RecoverFn) (keccak : KeccakFn)
    (b : Bridge) (output_root : List Nat) (block_number : Nat)
    (signatures : List (List Nat × List Nat)) :
    Option (Except RegisterOutputRootError (Bridge × List Nat)) :=
  if ¬ (b.base_block_number < block_number ∧ block_number % 300 = 0) then
    some (Except.error RegisterOutputRootError.IncorrectBlockNumber)
  else
    match verify_m_of_n_signatures recover keccak output_root block_number signatures with
    | none => none
    | some (Except.error e) => some (Except.error e)
    | some (Except.ok _) =>
      some (Except.ok ({ b with base_block_number := block_number }, output_root))

end BaseToSolana

namespace BaseToSolana

/-- A downstream Solana instruction carried by an incoming message; relayed
via CPI, its content is opaque to the handler, so an id suffices. -/
abbrev Ix := Nat

/-- Modelled from the spec: the base_to_solana Transfer enum declaration is
not among the sources (relay_message.rs only matches on it); per §4.8 it
has the variants Sol, Spl and WrappedToken, each carrying finalization
data, opaque here. -/
inductive Transfer
  | Sol (payload : Nat)
  | Spl (payload : Nat)
  | WrappedToken (payload : Nat)
deriving DecidableEq, Repr

/-- Modelled from the spec: the base_to_solana Message enum declaration is
not among the sources (relay_message.rs destructures it); per §3 it is
either a list of instructions or a transfer plus instructions. -/
inductive Message
  | Call (ixs : List Ix)
  | Transfer (transfer : Transfer) (ixs : List Ix)
deriving DecidableEq, Repr

/-- Modelled from the spec: the IncomingMessage account declaration is not
among the sources; per §3 and the fields relay_message.rs reads it carries
the executed flag, the Base sender, and the message body. -/
structure IncomingMessage where
  executed : Bool
  sender : Pubkey
  message : Message
deriving DecidableEq, Repr

/-- RelayMessageError (relay_message.rs) extended with the two failure
sources the handler propagates with the question-mark operator: a failing
transfer finalization and a failing downstream CPI. -/
inductive RelayMessageError
  | AlreadyExecuted
  | TransferFinalizationFailed
  | CpiFailed
deriving DecidableEq, Repr

/-- Environment of one relay attempt: whether the transfer finalization CPI
and each downstream instruction invocation would succeed under the accounts
and lamports supplied by this particular caller. -/
structure RelayEnv where
  finalizeOk : Transfer → Bool
  invokeOk : Ix → Bool

/-- The instruction loop of relay_message_handler: invoke_signed each
instruction in order, propagating the first failure. -/
def invoke_all (env : RelayEnv) : List Ix → Except RelayMessageError Unit
  | [] => Except.ok ()
  | ix :: rest =>
    if env.invokeOk ix then invoke_all env rest
    else Except.error RelayMessageError.CpiFailed

/-- relay_message_handler (bridge/src/base_to_solana/instructions/relay_message.rs):
refuse if already executed; split the message into optional transfer and
instruction list; finalize the transfer if present; invoke every
instruction; only then set executed.  The second component is the message
account state after the transaction: unchanged on any error (abort). -/
def relay_message_handler (env : RelayEnv) (m : IncomingMessage) :
    Except RelayMessageError Unit × IncomingMessage :=
  if m.executed then (Except.error RelayMessageError.AlreadyExecuted, m)
  else
    let parts := match m.message with
      | Message.Call ixs => ((none : Option Transfer), ixs)
      | Message.Transfer t ixs => (some t, ixs)
    match (match parts.1 with
           | some t =>
             if env.finalizeOk t then Except.ok ()
             else Except.error RelayMessageError.TransferFinalizationFailed
           | none => Except.ok ()) with
    | Except.error e => (Except.error e, m)
    | Except.ok _ =>
      match invoke_all env parts.2 with
      | Except.error e => (Except.error e, m)
      | Except.ok _ => (Except.ok (), { m with executed := true })

/-- Number of successful relays over a sequence of attempts, threading the
message account state. -/
def relay_success_count : IncomingMessage → List RelayEnv → Nat
  | _, [] => 0
  | m, env :: rest =>
    (match (relay_message_handler env m).1 with
     | Except.ok _ => 1
     | Except.error _ => 0) +
      relay_success_count (relay_message_handler env m).2 rest

/-- A keccak oracle used to exercise the verification code on concrete
inputs: constant 32-byte zero digest. -/
def toyKeccak : KeccakFn := fun _ => List.replicate 32 0

/-- A recovery oracle used to exercise the verification code on concrete
inputs: always recovers the 64-byte zero public key. -/
def toyRecover : RecoverFn := fun _ _ _ => some (List.replicate 64 0)

/-- The 20-byte address matching toyKeccak and toyRecover: the last 20
bytes of the zero digest. -/
def zeroEthAddr : List Nat := List.replicate 20 0

/-- A 65-byte signature with v = 27 (recovery id 0). -/
def sigV27 : List Nat := List.replicate 64 0 ++ [27]

/-- A 65-byte signature whose final byte v = 0 lies below 27. -/
def sigV0 : List Nat := List.replicate 64 0 ++ [0]

end BaseToSolana

/-- An EIP-1559 state below whose floor the used-window update lands:
target 5000000, denominator 2, window 1s, minimum 2, base 2, no gas used,
window started at 1000. -/
def feeFloorState : Eip1559 :=
  { target := 5000000, denominator := 2, window_duration_seconds := 1,
    minimum_base_fee := 2, current_base_fee := 2, current_window_gas_used := 0,
    window_start_time := 1000 }

/-- A fee state for the multi-window decay run: base 1000, gas used exactly
at target, window started at 0. -/
def decayState : Eip1559 :=
  { target := 5000000, denominator := 2, window_duration_seconds := 1,
    minimum_base_fee := 1, current_base_fee := 1000, current_window_gas_used := 5000000,
    window_start_time := 0 }

/-- A bridge whose guardian configured a block interval requirement of 100
(set_block_interval_requirement_handler accepts any value in [1, 10000]). -/
def intervalBridge : Bridge :=
  { initialize_handler 0 with protocol_config := { block_interval_requirement := 100 } }

/-- A bridge whose guardian switched it to paused. -/
def pausedBridge : Bridge :=
  { initialize_handler 0 with paused := true }

/-- The zero-data outbound message whose transfer carries a call, the shape
whose predicted relay size is under test. -/
def transferAndCallMessage : SolanaToBase.OutgoingMessage :=
  { nonce := 0, original_payer := "payer", sender := "sender",
    message := SolanaToBase.Message.Transfer
      { «to» := List.replicate 20 0, local_token := NATIVE_SOL_PUBKEY,
        remote_token := List.replicate 20 0, amount := 1,
        call := some { ty := SolanaToBase.CallType.Call, «to» := List.replicate 20 0,
                       value := 0, data := [] } } }

/-- A zero-data plain call used in outbound attempts. -/
def emptyCall : SolanaToBase.Call :=
  { ty := SolanaToBase.CallType.Call, «to» := List.replicate 20 0, value := 0, data := [] }

/-- A freshly pre-allocated call-buffer account: 8 zero discriminator
bytes; the typed payload view of the remaining zero bytes is a zeroed
CallBuffer. -/
def freshCallBufferAccount : SolanaToBase.CallBufferAccount :=
  { disc := List.replicate 8 0,
    payload := { owner := "", ty := SolanaToBase.CallType.Call,
                 «to» := List.replicate 20 0, value := 0, data := [] } }

/-- The call-buffer account as written by a successful initialization by
alice with a one-byte payload. -/
def aliceCallBufferAccount : SolanaToBase.CallBufferAccount :=
  { disc := SolanaToBase.CALL_BUFFER_DISCRIMINATOR,
    payload := { owner := "alice", ty := SolanaToBase.CallType.Call,
                 «to» := List.replicate 20 0, value := 0, data := [1] } }

/-- Effects required by a relay: the transfer finalization (when present)
and every downstream instruction invocation succeed. -/
def relay_effects_ok (env : BaseToSolana.RelayEnv) (m : BaseToSolana.IncomingMessage) : Prop :=
  match m.message with
  | BaseToSolana.Message.Call ixs => ∀ ix ∈ ixs, env.invokeOk ix = true
  | BaseToSolana.Message.Transfer t ixs =>
      env.finalizeOk t = true ∧ ∀ ix ∈ ixs, env.invokeOk ix = true

/-- A relay environment in which every transfer finalization and every
downstream invocation succeeds. -/
def allOkRelayEnv : BaseToSolana.RelayEnv :=
  { finalizeOk := fun _ => true, invokeOk := fun _ => true }

/-- A proven-but-unexecuted incoming message carrying one downstream
instruction. -/
def provenMessage : BaseToSolana.IncomingMessage :=
  { executed := false, sender := "basesender", message := BaseToSolana.Message.Call [7] }

/-- C1: the source's threshold verification counts duplicate submissions
separately and its trusted-oracle registry is an accept-all stub, so a
batch made of the same valid (address, signature) pair twice passes the
hardcoded threshold of 2: under oracles for which sigV27 is a valid
signature of zeroEthAddr, verify_m_of_n_signatures accepts the duplicated
pair, which the claim says can never satisfy a threshold of 2. -/
theorem verify_m_of_n_accepts_duplicate_signer :
    BaseToSolana.verify_m_of_n_signatures BaseToSolana.toyRecover BaseToSolana.toyKeccak
      (List.replicate 32 1) 300
      [(BaseToSolana.zeroEthAddr, BaseToSolana.sigV27),
       (BaseToSolana.zeroEthAddr, BaseToSolana.sigV27)] =
      some (Except.ok ()) := by
  rfl

/-- C2: after refresh_base_fee the fee can land strictly below
minimum_base_fee: from base 2, floor 2, zero gas in one expired window, the
used-window update subtracts delta 1 with checked_sub and, because no
underflow occurs, the unwrap_or floor clamp never fires, leaving fee 1. -/
theorem refresh_base_fee_breaks_floor :
    feeFloorState.refresh_base_fee 1001 =
      some (1, { feeFloorState with current_base_fee := 1, current_window_gas_used := 0,
                                    window_start_time := 1001 }) ∧
    1 < feeFloorState.minimum_base_fee := by
  exact ⟨rfl, by decide⟩

/-- C4: register_output_root validates block_number against the literal 300
and never reads bridge.protocol_config.block_interval_requirement: with the
interval configured to 100 and an otherwise valid submission for block 100
(which the claim says must be accepted), the handler fails with
IncorrectBlockNumber. -/
theorem register_output_root_ignores_configured_interval :
    intervalBridge.protocol_config.block_interval_requirement = 100 ∧
    100 % intervalBridge.protocol_config.block_interval_requirement = 0 ∧
    BaseToSolana.register_output_root_handler BaseToSolana.toyRecover BaseToSolana.toyKeccak
      intervalBridge (List.replicate 32 1) 100
      [(BaseToSolana.zeroEthAddr, BaseToSolana.sigV27),
       (BaseToSolana.zeroEthAddr, BaseToSolana.sigV27)] =
      some (Except.error BaseToSolana.RegisterOutputRootError.IncorrectBlockNumber) := by
  exact ⟨rfl, rfl, rfl⟩

/-- C5: for a Transfer that carries a call, relay_messages_tx_size uses the
plain-transfer overhead 480 instead of the transfer-and-call overhead 704
asserted by the repository's own ABI tests (the source marks this with a
TODO): the zero-data transfer-and-call message sizes to 480. -/
theorem relay_messages_tx_size_transfer_with_call :
    transferAndCallMessage.relay_messages_tx_size = 480 ∧
    SolanaToBase.RELAY_MESSAGES_TRANSFER_AND_CALL_ABI_ENCODING_OVERHEAD = 704 := by
  exact ⟨rfl, rfl⟩

/-- C6: with the bridge paused, bridge_sol_handler has no pause gate and
runs to completion (locking funds and advancing the nonce), while
bridge_call_handler fails with BridgePaused; the repository's own test
notes list bridge_sol among the instructions that should be blocked. -/
theorem bridge_sol_not_pause_gated :
    SolanaToBase.bridge_sol_handler (fun _ => 0) pausedBridge "payer" "user"
      1000000000 1000000000 1000 (List.replicate 20 0) (List.replicate 20 0) 500 none 0 =
      Except.ok ({ pausedBridge with
                     eip1559 := { pausedBridge.eip1559 with current_window_gas_used := 1000 },
                     nonce := 1 },
                 { nonce := 0, original_payer := "payer", sender := "user",
                   message := SolanaToBase.Message.Transfer
                     { «to» := List.replicate 20 0, local_token := NATIVE_SOL_PUBKEY,
                       remote_token := List.replicate 20 0, amount := 500, call := none } }) ∧
    SolanaToBase.bridge_call_handler (fun _ => 0) pausedBridge "payer" "user"
      1000000000 1000 emptyCall 0 =
      Except.error SolanaToBase.OutboundError.BridgePaused := by
  exact ⟨rfl, rfl⟩

/-- C9 counterexample: a 65-byte signature whose final byte v = 0 (outside
27..30) does not make verification return an error value: the u8
computation v - 27 underflows and the program aborts (None), so there is no
value, error or otherwise. -/
theorem verify_signature_aborts_below_27 :
    BaseToSolana.verify_secp256k1_signature BaseToSolana.toyRecover BaseToSolana.toyKeccak
      BaseToSolana.sigV0 (List.replicate 32 0) BaseToSolana.zeroEthAddr = none := by
  rfl

/-- C9 amended: for a final byte v of 31 or more, verification returns the
InvalidRecoveryId error; for v below 27, the v - 27 subtraction underflows
under the crate's overflow checks and the instruction aborts instead of
returning an error, for any recovery and keccak oracles. -/
theorem verify_signature_recovery_id_handling (recover : BaseToSolana.RecoverFn)
    (keccak : BaseToSolana.KeccakFn) (signature message_hash expected_pubkey : List Nat) :
    (31 ≤ signature.getD 64 0 →
      BaseToSolana.verify_secp256k1_signature recover keccak signature message_hash
        expected_pubkey =
        some (Except.error BaseToSolana.RegisterOutputRootError.InvalidRecoveryId)) ∧
    (signature.getD 64 0 < 27 →
      BaseToSolana.verify_secp256k1_signature recover keccak signature message_hash
        expected_pubkey = none) := by
  constructor
  · intro h
    unfold BaseToSolana.verify_secp256k1_signature
    cases hs : checkedSubNat (signature.getD 64 0) 27 with
    | none =>
      exfalso
      unfold checkedSubNat at hs
      rw [if_pos (by omega)] at hs
      exact Option.noConfusion hs
    | some rid =>
      have hrid : 4 ≤ rid := by
        unfold checkedSubNat at hs
        rw [if_pos (by omega)] at hs
        injection hs with hv
        omega
      dsimp only
      rw [hs]
      dsimp only
      rw [if_pos hrid]
  · intro h
    unfold BaseToSolana.verify_secp256k1_signature
    cases hs : checkedSubNat (signature.getD 64 0) 27 with
    | none =>
      dsimp only
      rw [hs]
    | some rid =>
      exfalso
      unfold checkedSubNat at hs
      rw [if_neg (by omega)] at hs
      exact Option.noConfusion hs

/-- C9 witness: both arms of the amended statement at concrete inputs:
v = 31 gives the InvalidRecoveryId error and v = 0 aborts. -/
theorem verify_signature_recovery_id_handling_witness :
    BaseToSolana.verify_secp256k1_signature BaseToSolana.toyRecover BaseToSolana.toyKeccak
      (List.replicate 64 0 ++ [31]) (List.replicate 32 0) BaseToSolana.zeroEthAddr =
      some (Except.error BaseToSolana.RegisterOutputRootError.InvalidRecoveryId) ∧
    BaseToSolana.verify_secp256k1_signature BaseToSolana.toyRecover BaseToSolana.toyKeccak
      BaseToSolana.sigV0 (List.replicate 32 0) BaseToSolana.zeroEthAddr = none := by
  exact ⟨(verify_signature_recovery_id_handling BaseToSolana.toyRecover BaseToSolana.toyKeccak
            (List.replicate 64 0 ++ [31]) (List.replicate 32 0) BaseToSolana.zeroEthAddr).1
            (by decide),
         (verify_signature_recovery_id_handling BaseToSolana.toyRecover BaseToSolana.toyKeccak
            BaseToSolana.sigV0 (List.replicate 32 0) BaseToSolana.zeroEthAddr).2 (by decide)⟩

/-- Helper: an account whose discriminator bytes are not all zero rejects
initialization and is left unchanged. -/
theorem initialize_call_buffer_nonzero_disc (payer : Pubkey) (ty : SolanaToBase.CallType)
    (toAddr : List Nat) (value : Nat) (data : List Nat)
    (acct : SolanaToBase.CallBufferAccount) (h : acct.disc ≠ List.replicate 8 0) :
    SolanaToBase.initialize_call_buffer_handler payer ty toAddr value data acct =
      Except.error SolanaToBase.InitializeCallBufferError.AlreadyInitialized ∧
    SolanaToBase.initialize_call_buffer_step payer ty toAddr value data acct = acct := by
  have he : SolanaToBase.initialize_call_buffer_handler payer ty toAddr value data acct =
      Except.error SolanaToBase.InitializeCallBufferError.AlreadyInitialized := by
    unfold SolanaToBase.initialize_call_buffer_handler
    rw [if_pos h]
  refine ⟨he, ?_⟩
  unfold SolanaToBase.initialize_call_buffer_step
  rw [he]

/-- C10: initialize_call_buffer fails with AlreadyInitialized and leaves
the account unchanged whenever the 8 discriminator bytes are not all zero;
a successful initialization records the paying signer as owner and writes
the nonzero CallBuffer discriminator, after which every further
initialization attempt fails and preserves the stored owner and data. -/
theorem initialize_call_buffer_write_once :
    (∀ (payer : Pubkey) (ty : SolanaToBase.CallType) (toAddr : List Nat) (value : Nat)
        (data : List Nat) (acct : SolanaToBase.CallBufferAccount),
        acct.disc ≠ List.replicate 8 0 →
          SolanaToBase.initialize_call_buffer_handler payer ty toAddr value data acct =
            Except.error SolanaToBase.InitializeCallBufferError.AlreadyInitialized ∧
          SolanaToBase.initialize_call_buffer_step payer ty toAddr value data acct = acct) ∧
    (∀ (payer : Pubkey) (ty : SolanaToBase.CallType) (toAddr : List Nat) (value : Nat)
        (data : List Nat) (acct acct2 : SolanaToBase.CallBufferAccount),
        SolanaToBase.initialize_call_buffer_handler payer ty toAddr value data acct =
          Except.ok acct2 →
        acct2.payload.owner = payer ∧ acct2.payload.data = data ∧
        ∀ (payer2 : Pubkey) (ty2 : SolanaToBase.CallType) (to2 : List Nat) (value2 : Nat)
            (data2 : List Nat),
          SolanaToBase.initialize_call_buffer_handler payer2 ty2 to2 value2 data2 acct2 =
            Except.error SolanaToBase.InitializeCallBufferError.AlreadyInitialized ∧
          SolanaToBase.initialize_call_buffer_step payer2 ty2 to2 value2 data2 acct2 = acct2) := by
  refine ⟨fun payer ty toAddr value data acct h =>
    initialize_call_buffer_nonzero_disc payer ty toAddr value data acct h, ?_⟩
  intro payer ty toAddr value data acct acct2 hok
  unfold SolanaToBase.initialize_call_buffer_handler at hok
  by_cases hd : acct.disc ≠ List.replicate 8 0
  · rw [if_pos hd] at hok
    exact Except.noConfusion hok
  · rw [if_neg hd] at hok
    injection hok with hacct
    subst hacct
    refine ⟨rfl, rfl, ?_⟩
    intro payer2 ty2 to2 value2 data2
    refine initialize_call_buffer_nonzero_disc payer2 ty2 to2 value2 data2 _ ?_
    show SolanaToBase.CALL_BUFFER_DISCRIMINATOR ≠ List.replicate 8 0
    decide

/-- C10 witness: alice initializes a fresh buffer; a later initialization
by mallory fails with AlreadyInitialized and alice's account is untouched. -/
theorem initialize_call_buffer_write_once_witness :
    SolanaToBase.initialize_call_buffer_handler "alice" SolanaToBase.CallType.Call
      (List.replicate 20 0) 0 [1] freshCallBufferAccount = Except.ok aliceCallBufferAccount ∧
    SolanaToBase.initialize_call_buffer_handler "mallory" SolanaToBase.CallType.Call
      (List.replicate 20 0) 0 [2] aliceCallBufferAccount =
      Except.error SolanaToBase.InitializeCallBufferError.AlreadyInitialized ∧
    SolanaToBase.initialize_call_buffer_step "mallory" SolanaToBase.CallType.Call
      (List.replicate 20 0) 0 [2] aliceCallBufferAccount = aliceCallBufferAccount := by
  refine ⟨rfl, ?_⟩
  exact (initialize_call_buffer_write_once.2 "alice" SolanaToBase.CallType.Call
    (List.replicate 20 0) 0 [1] freshCallBufferAccount aliceCallBufferAccount rfl).2.2
    "mallory" SolanaToBase.CallType.Call (List.replicate 20 0) 0 [2]

/-- Helper: a successful instruction loop means every instruction's
invocation succeeded. -/
theorem invoke_all_ok_mem (env : BaseToSolana.RelayEnv) :
    ∀ ixs : List BaseToSolana.Ix, BaseToSolana.invoke_all env ixs = Except.ok () →
      ∀ ix ∈ ixs, env.invokeOk ix = true := by
  intro ixs
  induction ixs with
  | nil =>
    intro _ ix hix
    exact absurd hix (List.not_mem_nil ix)
  | cons a rest ih =>
    intro h ix hix
    unfold BaseToSolana.invoke_all at h
    by_cases ha : env.invokeOk a = true
    · rw [if_pos ha] at h
      rcases List.mem_cons.mp hix with h1 | h2
      · exact h1 ▸ ha
      · exact ih h ix h2
    · rw [if_neg ha] at h
      exact Except.noConfusion h

/-- Helper: full behavioural characterization of one relay attempt.  An
already-executed message is refused and untouched; a success implies the
message was unexecuted, is now marked executed, and every effect
succeeded; an error leaves the message account unchanged. -/
theorem relay_handler_spec (env : BaseToSolana.RelayEnv) (m : BaseToSolana.IncomingMessage) :
    (m.executed = true →
      BaseToSolana.relay_message_handler env m =
        (Except.error BaseToSolana.RelayMessageError.AlreadyExecuted, m)) ∧
    ((BaseToSolana.relay_message_handler env m).1 = Except.ok () →
      m.executed = false ∧
      (BaseToSolana.relay_message_handler env m).2 = { m with executed := true } ∧
      relay_effects_ok env m) ∧
    (∀ e, (BaseToSolana.relay_message_handler env m).1 = Except.error e →
      (BaseToSolana.relay_message_handler env m).2 = m) := by
  cases hex : m.executed with
  | true =>
    have he : BaseToSolana.relay_message_handler env m =
        (Except.error BaseToSolana.RelayMessageError.AlreadyExecuted, m) := by
      unfold BaseToSolana.relay_message_handler
      rw [if_pos hex]
    refine ⟨fun _ => he, ?_, fun e _ => by rw [he]⟩
    rw [he]
    intro h
    exact Except.noConfusion h
  | false =>
    have hne : ¬ (m.executed = true) := by
      rw [hex]
      exact Bool.false_ne_true
    cases hm : m.message with
    | Call ixs =>
      cases hinv : BaseToSolana.invoke_all env ixs with
      | ok u =>
        cases u
        have he : BaseToSolana.relay_message_handler env m =
            (Except.ok (), { m with executed := true }) := by
          unfold BaseToSolana.relay_message_handler
          rw [if_neg hne]
          dsimp only
          rw [hm]
          dsimp only
          rw [hinv]
        refine ⟨fun h => absurd h (by decide), fun _ => ⟨rfl, by rw [he, hm], ?_⟩,
                fun e h => ?_⟩
        · unfold relay_effects_ok
          rw [hm]
          exact invoke_all_ok_mem env ixs hinv
        · rw [he] at h
          exact Except.noConfusion h
      | error err =>
        have he : BaseToSolana.relay_message_handler env m = (Except.error err, m) := by
          unfold BaseToSolana.relay_message_handler
          rw [if_neg hne]
          dsimp only
          rw [hm]
          dsimp only
          rw [hinv]
        refine ⟨fun h => absurd h (by decide), fun h => ?_, fun e _ => by rw [he]⟩
        rw [he] at h
        exact Except.noConfusion h
    | Transfer t ixs =>
      cases hfin : env.finalizeOk t with
      | false =>
        have he : BaseToSolana.relay_message_handler env m =
            (Except.error BaseToSolana.RelayMessageError.TransferFinalizationFailed, m) := by
          unfold BaseToSolana.relay_message_handler
          rw [if_neg hne]
          dsimp only
          rw [hm]
          dsimp only
          rw [hfin]
          rw [if_neg (fun hh => Bool.false_ne_true hh)]
        refine ⟨fun h => absurd h (by decide), fun h => ?_, fun e _ => by rw [he]⟩
        rw [he] at h
        exact Except.noConfusion h
      | true =>
        cases hinv : BaseToSolana.invoke_all env ixs with
        | ok u =>
          cases u
          have he : BaseToSolana.relay_message_handler env m =
              (Except.ok (), { m with executed := true }) := by
            unfold BaseToSolana.relay_message_handler
            rw [if_neg hne]
            dsimp only
            rw [hm]
            dsimp only
            rw [hfin]
            rw [if_pos rfl]
            dsimp only
            rw [hinv]
          refine ⟨fun h => absurd h (by decide), fun _ => ⟨rfl, by rw [he, hm], ?_⟩,
                  fun e h => ?_⟩
          · unfold relay_effects_ok
            rw [hm]
            exact ⟨hfin, invoke_all_ok_mem env ixs hinv⟩
          · rw [he] at h
            exact Except.noConfusion h
        | error err =>
          have he : BaseToSolana.relay_message_handler env m = (Except.error err, m) := by
            unfold BaseToSolana.relay_message_handler
            rw [if_neg hne]
            dsimp only
            rw [hm]
            dsimp only
            rw [hfin]
            rw [if_pos rfl]
            dsimp only
            rw [hinv]
          refine ⟨fun h => absurd h (by decide), fun h => ?_, fun e _ => by rw [he]⟩
          rw [he] at h
          exact Except.noConfusion h

/-- Helper: once a message is marked executed, no sequence of further
attempts ever succeeds. -/
theorem relay_count_zero_of_executed (envs : List BaseToSolana.RelayEnv) :
    ∀ m : BaseToSolana.IncomingMessage, m.executed = true →
      BaseToSolana.relay_success_count m envs = 0 := by
  induction envs with
  | nil =>
    intro m _
    rfl
  | cons env rest ih =>
    intro m hm
    have he := (relay_handler_spec env m).1 hm
    unfold BaseToSolana.relay_success_count
    rw [he]
    dsimp only
    rw [ih m hm]

/-- C3: relay_message refuses an already-executed message with
AlreadyExecuted; a success implies the message was unexecuted, every
effect (optional transfer finalization and each downstream instruction)
succeeded, and the flag is now set; any error leaves the account
unchanged; consequently over any sequence of relay attempts in any
environments, at most one succeeds. -/
theorem relay_message_execute_at_most_once :
    (∀ (env : BaseToSolana.RelayEnv) (m : BaseToSolana.IncomingMessage),
      m.executed = true →
        BaseToSolana.relay_message_handler env m =
          (Except.error BaseToSolana.RelayMessageError.AlreadyExecuted, m)) ∧
    (∀ (env : BaseToSolana.RelayEnv) (m : BaseToSolana.IncomingMessage),
      (BaseToSolana.relay_message_handler env m).1 = Except.ok () →
        m.executed = false ∧
        (BaseToSolana.relay_message_handler env m).2.executed = true ∧
        relay_effects_ok env m) ∧
    (∀ (env : BaseToSolana.RelayEnv) (m : BaseToSolana.IncomingMessage) e,
      (BaseToSolana.relay_message_handler env m).1 = Except.error e →
        (BaseToSolana.relay_message_handler env m).2 = m) ∧
    (∀ (m : BaseToSolana.IncomingMessage) (envs : List BaseToSolana.RelayEnv),
      BaseToSolana.relay_success_count m envs ≤ 1) := by
  refine ⟨fun env m h => (relay_handler_spec env m).1 h, fun env m h => ?_,
          fun env m e h => (relay_handler_spec env m).2.2 e h, fun m envs => ?_⟩
  · obtain ⟨h1, h2, h3⟩ := (relay_handler_spec env m).2.1 h
    refine ⟨h1, ?_, h3⟩
    rw [h2]
  · induction envs generalizing m with
    | nil => exact Nat.zero_le 1
    | cons env rest ih =>
      unfold BaseToSolana.relay_success_count
      cases hr : (BaseToSolana.relay_message_handler env m).1 with
      | ok u =>
        cases u
        obtain ⟨h1, h2, h3⟩ := (relay_handler_spec env m).2.1 hr
        rw [h2, relay_count_zero_of_executed rest { m with executed := true } rfl]
      | error e =>
        have hm2 := (relay_handler_spec env m).2.2 e hr
        rw [hm2]
        dsimp only
        have := ih m
        omega

/-- C3 witness: a proven, unexecuted message relays successfully in an
all-effects-succeed environment, marking it executed. -/
theorem relay_message_execute_at_most_once_witness :
    provenMessage.executed = false ∧
    (BaseToSolana.relay_message_handler allOkRelayEnv provenMessage).2.executed = true ∧
    relay_effects_ok allOkRelayEnv provenMessage :=
  relay_message_execute_at_most_once.2.1 allOkRelayEnv provenMessage rfl

/-- Helper: a successful checked u64 addition returns the exact sum. -/
theorem checkedAddU64_some {a b c : Nat} (h : checkedAddU64 a b = some c) : c = a + b := by
  unfold checkedAddU64 at h
  by_cases hab : a + b < U64_LIMIT
  · rw [if_pos hab] at h
    injection h with h2
    exact h2.symm
  · rw [if_neg hab] at h
    exact Option.noConfusion h

/-- Helper: a successful bridge_call records the pre-state nonce in the
persisted message and advances the bridge nonce by exactly one. -/
theorem bridge_call_handler_ok (overhead : Nat → Nat) (b : Bridge) (payer fromKey : Pubkey)
    (pb gl : Nat) (c : SolanaToBase.Call) (now : Nat) (b2 : Bridge)
    (msg : SolanaToBase.OutgoingMessage)
    (h : SolanaToBase.bridge_call_handler overhead b payer fromKey pb gl c now =
      Except.ok (b2, msg)) :
    msg.nonce = b.nonce ∧ b2.nonce = b.nonce + 1 := by
  unfold SolanaToBase.bridge_call_handler at h
  by_cases hp : b.paused = true
  · rw [if_pos hp] at h
    exact Except.noConfusion h
  · rw [if_neg hp] at h
    cases hcc : SolanaToBase.check_call c with
    | error e =>
      rw [hcc] at h
      exact Except.noConfusion h
    | ok u =>
      rw [hcc] at h
      dsimp only at h
      cases hg : SolanaToBase.check_and_pay_for_gas overhead b.eip1559 b.gas_cost_config
          b.gas_config now pb gl
          (SolanaToBase.OutgoingMessage.new_call b.nonce payer fromKey c).relay_messages_tx_size with
      | none =>
        rw [hg] at h
        exact Except.noConfusion h
      | some pr =>
        obtain ⟨e2, cst⟩ := pr
        rw [hg] at h
        dsimp only at h
        cases hn : checkedAddU64 b.nonce 1 with
        | none =>
          rw [hn] at h
          exact Except.noConfusion h
        | some n2 =>
          rw [hn] at h
          injection h with hpair
          injection hpair with hA hB
          subst hA
          subst hB
          exact ⟨rfl, (checkedAddU64_some hn).symm ▸ rfl⟩

/-- Helper: a successful bridge_sol records the pre-state nonce in the
persisted message and advances the bridge nonce by exactly one. -/
theorem bridge_sol_handler_ok (overhead : Nat → Nat) (b : Bridge) (payer fromKey : Pubkey)
    (pb fb gl : Nat) (toAddr rt : List Nat) (amount : Nat)
    (c : Option SolanaToBase.Call) (now : Nat) (b2 : Bridge)
    (msg : SolanaToBase.OutgoingMessage)
    (h : SolanaToBase.bridge_sol_handler overhead b payer fromKey pb fb gl toAddr rt amount
      c now = Except.ok (b2, msg)) :
    msg.nonce = b.nonce ∧ b2.nonce = b.nonce + 1 := by
  unfold SolanaToBase.bridge_sol_handler at h
  cases hcc : (match c with
               | some cc => SolanaToBase.check_call cc
               | none => Except.ok ()) with
  | error e =>
    rw [hcc] at h
    exact Except.noConfusion h
  | ok u =>
    rw [hcc] at h
    dsimp only at h
    cases hg : SolanaToBase.check_and_pay_for_gas overhead b.eip1559 b.gas_cost_config
        b.gas_config now pb gl
        (SolanaToBase.OutgoingMessage.new_transfer b.nonce payer fromKey
          { «to» := toAddr, local_token := NATIVE_SOL_PUBKEY, remote_token := rt,
            amount := amount, call := c }).relay_messages_tx_size with
    | none =>
      rw [hg] at h
      exact Except.noConfusion h
    | some pr =>
      obtain ⟨e2, cst⟩ := pr
      rw [hg] at h
      dsimp only at h
      by_cases hfb : fb < amount
      · rw [if_pos hfb] at h
        exact Except.noConfusion h
      · rw [if_neg hfb] at h
        cases hn : checkedAddU64 b.nonce 1 with
        | none =>
          rw [hn] at h
          exact Except.noConfusion h
        | some n2 =>
          rw [hn] at h
          injection h with hpair
          injection hpair with hA hB
          subst hA
          subst hB
          exact ⟨rfl, (checkedAddU64_some hn).symm ▸ rfl⟩

/-- Helper: one outbound attempt preserves the nonce bookkeeping
invariant (bridge nonce equals the number of persisted messages, whose
nonces are exactly 0, 1, ..., n-1 in order). -/
theorem outbound_step_inv (overhead : Nat → Nat)
    (st : Bridge × List SolanaToBase.OutgoingMessage) (a : SolanaToBase.OutboundAttempt)
    (h1 : st.1.nonce = st.2.length)
    (h2 : st.2.map (fun m => m.nonce) = List.range st.2.length) :
    (SolanaToBase.outbound_step overhead st a).1.nonce =
      (SolanaToBase.outbound_step overhead st a).2.length ∧
    (SolanaToBase.outbound_step overhead st a).2.map (fun m => m.nonce) =
      List.range (SolanaToBase.outbound_step overhead st a).2.length := by
  cases a with
  | call payer fromKey pb gl c now =>
    unfold SolanaToBase.outbound_step
    dsimp only
    cases hr : SolanaToBase.bridge_call_handler overhead st.1 payer fromKey pb gl c now with
    | error e =>
      exact ⟨h1, h2⟩
    | ok pr =>
      obtain ⟨b2, m⟩ := pr
      obtain ⟨hm, hb⟩ := bridge_call_handler_ok overhead st.1 payer fromKey pb gl c now b2 m hr
      dsimp only
      constructor
      · simp [hb, h1]
      · simp [List.map_append, h2, hm, h1, List.range_succ]
  | sol payer fromKey pb fb gl toA rt amount c now =>
    unfold SolanaToBase.outbound_step
    dsimp only
    cases hr : SolanaToBase.bridge_sol_handler overhead st.1 payer fromKey pb fb gl toA rt
        amount c now with
    | error e =>
      exact ⟨h1, h2⟩
    | ok pr =>
      obtain ⟨b2, m⟩ := pr
      obtain ⟨hm, hb⟩ := bridge_sol_handler_ok overhead st.1 payer fromKey pb fb gl toA rt
        amount c now b2 m hr
      dsimp only
      constructor
      · simp [hb, h1]
      · simp [List.map_append, h2, hm, h1, List.range_succ]

/-- Helper: the invariant holds after folding any attempt sequence from
any state satisfying it. -/
theorem foldl_outbound_inv (overhead : Nat → Nat)
    (attempts : List SolanaToBase.OutboundAttempt) :
    ∀ st : Bridge × List SolanaToBase.OutgoingMessage,
      st.1.nonce = st.2.length →
      st.2.map (fun m => m.nonce) = List.range st.2.length →
      (attempts.foldl (SolanaToBase.outbound_step overhead) st).1.nonce =
        (attempts.foldl (SolanaToBase.outbound_step overhead) st).2.length ∧
      (attempts.foldl (SolanaToBase.outbound_step overhead) st).2.map (fun m => m.nonce) =
        List.range (attempts.foldl (SolanaToBase.outbound_step overhead) st).2.length := by
  induction attempts with
  | nil =>
    intro st h1 h2
    exact ⟨h1, h2⟩
  | cons a rest ih =>
    intro st h1 h2
    rw [List.foldl_cons]
    obtain ⟨g1, g2⟩ := outbound_step_inv overhead st a h1 h2
    exact ih _ g1 g2

/-- C7: a successful outbound send (bridge_call or bridge_sol) persists the
current bridge nonce in the message and then increments the bridge nonce by
exactly one, a failed send leaves the state untouched, and over any
sequence of attempts from a freshly initialized bridge the persisted
messages carry exactly the nonces 0, 1, ..., n-1 with the bridge nonce
equal to their count. -/
theorem outbound_nonce_gap_free :
    (∀ (overhead : Nat → Nat) (b : Bridge) (payer fromKey : Pubkey) (pb gl : Nat)
        (c : SolanaToBase.Call) (now : Nat) (b2 : Bridge) (msg : SolanaToBase.OutgoingMessage),
      SolanaToBase.bridge_call_handler overhead b payer fromKey pb gl c now =
        Except.ok (b2, msg) →
      msg.nonce = b.nonce ∧ b2.nonce = b.nonce + 1) ∧
    (∀ (overhead : Nat → Nat) (b : Bridge) (payer fromKey : Pubkey) (pb fb gl : Nat)
        (toAddr rt : List Nat) (amount : Nat) (c : Option SolanaToBase.Call) (now : Nat)
        (b2 : Bridge) (msg : SolanaToBase.OutgoingMessage),
      SolanaToBase.bridge_sol_handler overhead b payer fromKey pb fb gl toAddr rt amount
        c now = Except.ok (b2, msg) →
      msg.nonce = b.nonce ∧ b2.nonce = b.nonce + 1) ∧
    (∀ (overhead : Nat → Nat) (ts : Nat) (attempts : List SolanaToBase.OutboundAttempt),
      (SolanaToBase.run_outbound overhead ts attempts).1.nonce =
        (SolanaToBase.run_outbound overhead ts attempts).2.length ∧
      (SolanaToBase.run_outbound overhead ts attempts).2.map (fun m => m.nonce) =
        List.range (SolanaToBase.run_outbound overhead ts attempts).2.length) := by
  refine ⟨fun overhead b payer fromKey pb gl c now b2 msg h =>
            bridge_call_handler_ok overhead b payer fromKey pb gl c now b2 msg h,
          fun overhead b payer fromKey pb fb gl toAddr rt amount c now b2 msg h =>
            bridge_sol_handler_ok overhead b payer fromKey pb fb gl toAddr rt amount c now
              b2 msg h,
          fun overhead ts attempts => ?_⟩
  unfold SolanaToBase.run_outbound
  exact foldl_outbound_inv overhead attempts (initialize_handler ts, []) rfl rfl

/-- C7 witness: the first bridge_call on a fresh bridge persists nonce 0
and advances the bridge nonce to 1. -/
theorem outbound_nonce_gap_free_witness :
    ({ nonce := 0, original_payer := "p", sender := "f",
       message := SolanaToBase.Message.Call emptyCall } :
        SolanaToBase.OutgoingMessage).nonce = (initialize_handler 0).nonce ∧
    ({ initialize_handler 0 with
         eip1559 := { (initialize_handler 0).eip1559 with current_window_gas_used := 1000 },
         nonce := 1 } : Bridge).nonce = (initialize_handler 0).nonce + 1 :=
  outbound_nonce_gap_free.1 (fun _ => 0) (initialize_handler 0) "p" "f" 1000000000 1000
    emptyCall 0
    { initialize_handler 0 with
        eip1559 := { (initialize_handler 0).eip1559 with current_window_gas_used := 1000 },
        nonce := 1 }
    { nonce := 0, original_payer := "p", sender := "f",
      message := SolanaToBase.Message.Call emptyCall }
    rfl

/-- C8: with N expired windows, N at least 2, refresh_base_fee applies the
used-window update once (fee0) and multiplies it by the fixed_pow of the
SCALE-domain ratio (denominator * SCALE - SCALE) / denominator raised to
N - 1, dividing back by SCALE; when the first window's gas usage equals the
target, fee0 is exactly the previous base fee. -/
theorem refresh_base_fee_empty_window_decay (s : Eip1559) (now N fee0 factor : Nat)
    (hN : s.expired_windows_count now = some N) (h2 : 2 ≤ N)
    (hcalc : s.calc_base_fee s.current_window_gas_used = some fee0)
    (hden : 1 ≤ s.denominator)
    (hsd : s.denominator * SCALE < U128_LIMIT)
    (hfp : fixed_pow ((s.denominator * SCALE - SCALE) / s.denominator) (N - 1) = some factor)
    (hprod : fee0 * factor < U128_LIMIT) :
    s.refresh_base_fee now =
      some (fee0 * factor / SCALE % U64_LIMIT,
        { s with current_base_fee := fee0 * factor / SCALE % U64_LIMIT,
                 current_window_gas_used := 0, window_start_time := now }) ∧
    (s.current_window_gas_used = s.target → fee0 = s.current_base_fee) := by
  constructor
  · unfold Eip1559.refresh_base_fee
    rw [hN]
    dsimp only
    rw [if_neg (by omega)]
    rw [hcalc]
    dsimp only
    rw [if_pos (by omega)]
    have hsde : checkedMulU128 s.denominator SCALE = some (s.denominator * SCALE) := by
      unfold checkedMulU128
      rw [if_pos hsd]
    rw [hsde]
    dsimp only
    have hdiff : checkedSubNat (s.denominator * SCALE) SCALE =
        some (s.denominator * SCALE - SCALE) := by
      unfold checkedSubNat
      rw [if_pos (Nat.le_mul_of_pos_left SCALE hden)]
    rw [hdiff]
    dsimp only
    rw [hfp]
    dsimp only
    have hpe : checkedMulU128 fee0 factor = some (fee0 * factor) := by
      unfold checkedMulU128
      rw [if_pos hprod]
    rw [hpe]
  · intro hg
    unfold Eip1559.calc_base_fee at hcalc
    rw [if_pos hg] at hcalc
    injection hcalc with hh
    exact hh.symm

/-- C8 witness: from base 1000 with gas usage at target and 3 expired
windows, the fee decays by fixed_pow of one half squared, yielding 250. -/
theorem refresh_base_fee_empty_window_decay_witness :
    decayState.refresh_base_fee 3 =
      some (1000 * 250000000000000000 / SCALE % U64_LIMIT,
        { decayState with current_base_fee := 1000 * 250000000000000000 / SCALE % U64_LIMIT,
                          current_window_gas_used := 0, window_start_time := 3 }) ∧
    (decayState.current_window_gas_used = decayState.target →
      1000 = decayState.current_base_fee) :=
  refresh_base_fee_empty_window_decay decayState 3 3 1000 250000000000000000 rfl
    (by decide) rfl (by decide) (by decide) rfl (by decide)
